import Mathlib

/-!
Shallow embedding of `src/main.rs` of `aws-vpc-prefix-list-updater`.

The program keeps an AWS managed prefix list in sync with the host's
external IPv4 address.  The remote collaborators (the IP-echo HTTP
endpoint and the EC2 API) are modelled by an `Env` record holding the
response each call would return in the cycle under consideration; every
embedded function additionally returns the list of remote calls it
issued, so that claims about "zero remote calls" or about the exact
mutate request submitted can be stated as properties of that trace.
-/

deriving instance DecidableEq for Except

namespace VpcPlu

/-- Log severities of the `tracing` crate as used in `main.rs`
(`debug!`, `info!`, `warn!`, `error!`). -/
inductive Severity where
  | debugS
  | infoS
  | warnS
  | errorS
deriving DecidableEq, Repr

/-- One row of the remote managed prefix list, as surfaced by the AWS
SDK: both the CIDR and the description fields are optional
(`e.cidr()`, `e.description()` in `get_current_entries`). -/
structure RemoteEntry where
  cidr : Option String
  description : Option String
deriving DecidableEq, Repr

/-- A remote interaction issued during one reconciliation cycle.
`modifyPrefixList` records the full request that
`modify_managed_prefix_list` would submit: the `current_version` guard,
the CIDRs of the `remove_entries`, and the `(cidr, description)` pairs
of the `add_entries`. -/
inductive RemoteCall where
  | fetchIp
  | describePrefixLists
  | getEntries
  | modifyPrefixList (currentVersion : Int) (removals : List String)
      (additions : List (String × String))
deriving DecidableEq, Repr

/-- The fields of `PrefixListMonitor` that the reconciliation logic
reads or writes (the AWS client handle and the IP-service URL are part
of `Env` instead). `current_ip` is the in-memory last-known address. -/
structure Monitor where
  prefix_list_id : String
  description : String
  current_ip : Option String
  cidr_suffix : Nat
deriving DecidableEq, Repr

/-- Responses of the external collaborators for one cycle:
* `fetchResponse` — the raw text of `reqwest::get(ip_service).text()`;
* `describeResponse` — `describe_managed_prefix_lists`: the list of
  returned prefix lists, each reduced to its optional `version` field;
* `entriesResponse` — `get_managed_prefix_list_entries`: the entries;
* `modifyResponse` — `modify_managed_prefix_list`, as a function of the
  submitted request (version guard, removals, additions), so that a
  version-conflict rejection can be modelled. -/
structure Env where
  fetchResponse : Except String String
  describeResponse : Except String (List (Option Int))
  entriesResponse : Except String (List RemoteEntry)
  modifyResponse : Int → List String → List (String × String) → Except String Unit

/-- Whitespace removal of Rust's `str::trim` on the character list of
the response. -/
def trimChars (cs : List Char) : List Char :=
  (((cs.dropWhile Char.isWhitespace).reverse).dropWhile Char.isWhitespace).reverse

/-- `response.trim()` as a `String` operation. -/
def strTrim (s : String) : String :=
  String.mk (trimChars s.toList)

/-- Split a character list at the `.` separators (the groups Rust's
IPv4 parser reads between dots). -/
def splitOnDot (cs : List Char) : List (List Char) :=
  match cs with
  | [] => [[]]
  | c :: rest =>
    let r := splitOnDot rest
    if c = '.' then [] :: r
    else
      match r with
      | [] => [[c]]
      | g :: gs => (c :: g) :: gs

/-- One dotted-quad octet as accepted by Rust's
`str::parse::<std::net::Ipv4Addr>`: a non-empty run of ASCII digits,
no leading zero unless the octet is exactly `"0"`, value at most 255. -/
def isOctet (cs : List Char) : Bool :=
  (!cs.isEmpty) && cs.all Char.isDigit
    && (decide (cs.length = 1) || !(decide (cs.head? = some '0')))
    && decide (cs.foldl (fun a c => a * 10 + (c.toNat - 48)) 0 ≤ 255)

/-- Rust's `ip.parse::<std::net::Ipv4Addr>().is_ok()` (the check in
`get_external_ip`): exactly four octets separated by dots. -/
def is_valid_ipv4 (s : String) : Bool :=
  let parts := splitOnDot s.toList
  decide (parts.length = 4) && parts.all isOctet

/-- `format!("{}/{}", external_ip, self.cidr_suffix)` from
`check_and_update`. -/
def format_cidr (ip : String) (suffix : Nat) : String :=
  ip ++ "/" ++ toString suffix

/-- `PrefixListMonitor::get_external_ip`: fetch the IP-service text,
trim it, and accept it only if it parses as an IPv4 dotted-quad. -/
def get_external_ip (env : Env) : Except String String × List RemoteCall :=
  ( match env.fetchResponse with
    | .error e => .error e
    | .ok response =>
        let ip := strTrim response
        if is_valid_ipv4 ip then .ok ip else .error "Invalid IP address format"
  , [RemoteCall.fetchIp] )

/-- `PrefixListMonitor::get_prefix_list_version`: the `version` of the
first prefix list of the describe response, defaulting to 0 when the
field is absent (`unwrap_or(0)`); "Prefix list not found" when the
response holds no prefix list. -/
def get_prefix_list_version (env : Env) : Except String Int × List RemoteCall :=
  ( match env.describeResponse with
    | .error e => .error e
    | .ok prefix_lists =>
        match prefix_lists.head? with
        | none => .error "Prefix list not found"
        | some v => .ok (v.getD 0)
  , [RemoteCall.describePrefixLists] )

/-- The filter inside `get_current_entries`: the CIDRs of the entries
whose description equals the configured tag ("owned entries"). -/
def ownedCidrs (entries : List RemoteEntry) (tag : String) : List String :=
  entries.filterMap (fun e => if e.description = some tag then e.cidr else none)

/-- `PrefixListMonitor::get_current_entries`. -/
def get_current_entries (m : Monitor) (env : Env) :
    Except String (List String) × List RemoteCall :=
  ( match env.entriesResponse with
    | .error e => .error e
    | .ok entries => .ok (ownedCidrs entries m.description)
  , [RemoteCall.getEntries] )

/-- `PrefixListMonitor::update_prefix_list`: read the current version,
then submit one `modify_managed_prefix_list` request that removes every
CIDR of `old_cidrs`, adds `new_cidr` tagged with the configured
description, and is guarded by the version just read. -/
def update_prefix_list (m : Monitor) (env : Env) (new_cidr : String)
    (old_cidrs : List String) : Except String Unit × List RemoteCall :=
  match get_prefix_list_version env with
  | (.error e, calls) => (.error e, calls)
  | (.ok version, calls) =>
      ( env.modifyResponse version old_cidrs [(new_cidr, m.description)]
      , calls ++ [RemoteCall.modifyPrefixList version old_cidrs
          [(new_cidr, m.description)]] )

/-- `PrefixListMonitor::check_and_update`, one reconciliation cycle:
returns the cycle outcome (`Ok(true)` when the list was mutated,
`Ok(false)` otherwise, `Err` on failure), the monitor state after the
cycle, and the trace of remote calls issued. -/
def check_and_update (m : Monitor) (env : Env) :
    (Except String Bool × Monitor) × List RemoteCall :=
  match get_external_ip env with
  | (.error e, calls) => ((.error e, m), calls)
  | (.ok external_ip, calls0) =>
    let new_cidr := format_cidr external_ip m.cidr_suffix
    if m.current_ip = some external_ip then
      ((.ok false, m), calls0)
    else
      match get_current_entries m env with
      | (.error e, calls1) => ((.error e, m), calls0 ++ calls1)
      | (.ok current_entries, calls1) =>
        if current_entries.contains new_cidr then
          ((.ok false, { m with current_ip := some external_ip }), calls0 ++ calls1)
        else
          match update_prefix_list m env new_cidr current_entries with
          | (.error e, calls2) => ((.error e, m), calls0 ++ calls1 ++ calls2)
          | (.ok _, calls2) =>
              ((.ok true, { m with current_ip := some external_ip }),
                calls0 ++ calls1 ++ calls2)

/-- Events observable at the scheduler (`run`) boundary: a completed
cycle with its outcome, a log line with its severity, and one interval
sleep. -/
inductive SchedEvent where
  | cycleDone (result : Except String Bool)
  | logged (sev : Severity) (msg : String)
  | slept
deriving DecidableEq, Repr

/-- `PrefixListMonitor::run`, fuel-indexed: each iteration runs one
cycle against the next `Env` of the stream, logs a per-cycle error at
`error!` severity and swallows it, returns `Ok(())` right after the
first cycle when `once` is set, and otherwise sleeps and repeats.  The
first component is `some finalState` when the loop returned within the
given fuel and `none` when it did not. -/
def run (m : Monitor) (envs : Nat → Env) (once : Bool) :
    Nat → Option Monitor × List SchedEvent
  | 0 => (none, [])
  | fuel + 1 =>
    let r := check_and_update m (envs 0)
    let evs := SchedEvent.cycleDone r.1.1 ::
      (match r.1.1 with
       | .error e => [SchedEvent.logged Severity.errorS e]
       | .ok _ => [])
    if once then (some r.1.2, evs)
    else
      let rest := run r.1.2 (fun i => envs (i + 1)) once fuel
      (rest.1, evs ++ SchedEvent.slept :: rest.2)

/-- Number of completed cycles recorded in a scheduler trace. -/
def countCycles (evs : List SchedEvent) : Nat :=
  evs.countP (fun ev => match ev with | .cycleDone _ => true | _ => false)

/-- Number of interval sleeps recorded in a scheduler trace. -/
def countSleeps (evs : List SchedEvent) : Nat :=
  evs.countP (fun ev => match ev with | .slept => true | _ => false)

/-- The effect of a `modify_managed_prefix_list` request on the remote
list: entries whose CIDR is among the removals disappear, the added
entries are appended with their descriptions. -/
def applyModify (entries : List RemoteEntry) (removals : List String)
    (additions : List (String × String)) : List RemoteEntry :=
  entries.filter (fun e =>
    match e.cidr with
    | some c => !(removals.contains c)
    | none => true)
  ++ additions.map (fun a => { cidr := some a.1, description := some a.2 })

/-- Shared scenario: a cycle that detects a change whose candidate CIDR
is not among the owned entries reads the version and submits the single
guarded mutate request; the outcome follows the mutate response, and the
monitor state is updated exactly on success. -/
theorem check_and_update_mutate_path (m : Monitor) (env : Env) (raw : String)
    (entries : List RemoteEntry) (pls : List (Option Int)) (v0 : Option Int)
    (hfetch : env.fetchResponse = .ok raw)
    (hvalid : is_valid_ipv4 (strTrim raw) = true)
    (hchanged : m.current_ip ≠ some (strTrim raw))
    (hentries : env.entriesResponse = .ok entries)
    (habsent : (ownedCidrs entries m.description).contains
        (format_cidr (strTrim raw) m.cidr_suffix) = false)
    (hdesc : env.describeResponse = .ok pls)
    (hhead : pls.head? = some v0) :
    check_and_update m env
      = ( match env.modifyResponse (v0.getD 0) (ownedCidrs entries m.description)
            [(format_cidr (strTrim raw) m.cidr_suffix, m.description)] with
          | .error e => (Except.error e, m)
          | .ok _ => (Except.ok true, { m with current_ip := some (strTrim raw) })
        , [RemoteCall.fetchIp, RemoteCall.getEntries, RemoteCall.describePrefixLists,
            RemoteCall.modifyPrefixList (v0.getD 0) (ownedCidrs entries m.description)
              [(format_cidr (strTrim raw) m.cidr_suffix, m.description)]] ) := by
  have habsent' : format_cidr (strTrim raw) m.cidr_suffix ∉
      ownedCidrs entries m.description := by simpa using habsent
  rcases hmod : env.modifyResponse (v0.getD 0) (ownedCidrs entries m.description)
      [(format_cidr (strTrim raw) m.cidr_suffix, m.description)] with e | u
  all_goals
    simp [check_and_update, get_external_ip, get_current_entries, update_prefix_list,
      get_prefix_list_version, hfetch, hvalid, hchanged, hentries, habsent', hdesc,
      hhead, hmod]

/-- C2: when `last_known_address` is set and equals the freshly fetched
address, the cycle returns the unchanged outcome (`Ok(false)`)
immediately, issues no allowlist call (the trace holds only the IP
fetch), and leaves the monitor state — `current_ip` included —
unchanged. -/
theorem C2_unchanged_fast_path (m : Monitor) (env : Env) (raw : String)
    (hfetch : env.fetchResponse = .ok raw)
    (hvalid : is_valid_ipv4 (strTrim raw) = true)
    (hsame : m.current_ip = some (strTrim raw)) :
    check_and_update m env = ((Except.ok false, m), [RemoteCall.fetchIp]) := by
  simp [check_and_update, get_external_ip, hfetch, hvalid, hsame]

theorem C2_unchanged_fast_path_witness :
    check_and_update ⟨"pl-0123", "Auto-updated host IP", some "1.2.3.4", 32⟩
      ⟨.ok "1.2.3.4", .ok [some 7], .ok [], fun _ _ _ => .ok ()⟩
      = ((Except.ok false, ⟨"pl-0123", "Auto-updated host IP", some "1.2.3.4", 32⟩),
          [RemoteCall.fetchIp]) :=
  C2_unchanged_fast_path _ _ "1.2.3.4" rfl (by decide) (by decide)

/-- C3: when a change (or cold start) is detected and the candidate
CIDR is already among the owned entries verbatim, the cycle updates
`current_ip` to the fetched address and returns `Ok(false)` without any
mutate call: the trace holds only the IP fetch and the entry listing. -/
theorem C3_already_present (m : Monitor) (env : Env) (raw : String)
    (entries : List RemoteEntry)
    (hfetch : env.fetchResponse = .ok raw)
    (hvalid : is_valid_ipv4 (strTrim raw) = true)
    (hchanged : m.current_ip ≠ some (strTrim raw))
    (hentries : env.entriesResponse = .ok entries)
    (hpresent : (ownedCidrs entries m.description).contains
        (format_cidr (strTrim raw) m.cidr_suffix) = true) :
    check_and_update m env
      = ((Except.ok false, { m with current_ip := some (strTrim raw) }),
          [RemoteCall.fetchIp, RemoteCall.getEntries]) := by
  have hpresent' : format_cidr (strTrim raw) m.cidr_suffix ∈
      ownedCidrs entries m.description := by simpa using hpresent
  simp [check_and_update, get_external_ip, get_current_entries, hfetch, hvalid,
    hchanged, hentries, hpresent']

theorem C3_already_present_witness :
    check_and_update ⟨"pl-0123", "Auto-updated host IP", none, 32⟩
      ⟨.ok "1.2.3.4", .ok [some 7],
        .ok [⟨some "1.2.3.4/32", some "Auto-updated host IP"⟩], fun _ _ _ => .ok ()⟩
      = ((Except.ok false, ⟨"pl-0123", "Auto-updated host IP", some "1.2.3.4", 32⟩),
          [RemoteCall.fetchIp, RemoteCall.getEntries]) :=
  C3_already_present _ _ "1.2.3.4" _ rfl (by decide) (by decide) rfl (by decide)

/-- C1: when a cycle detects a changed (or cold-start) address whose
candidate CIDR is not among the owned entries, it reads the list's
version and then submits one mutate request that removes exactly the
owned entries (all of which differ from the candidate), adds the single
candidate CIDR tagged with the configured description, and is guarded
by the version just read. -/
theorem C1_conditional_mutate (m : Monitor) (env : Env) (raw : String)
    (entries : List RemoteEntry) (pls : List (Option Int)) (v0 : Option Int)
    (hfetch : env.fetchResponse = .ok raw)
    (hvalid : is_valid_ipv4 (strTrim raw) = true)
    (hchanged : m.current_ip ≠ some (strTrim raw))
    (hentries : env.entriesResponse = .ok entries)
    (habsent : (ownedCidrs entries m.description).contains
        (format_cidr (strTrim raw) m.cidr_suffix) = false)
    (hdesc : env.describeResponse = .ok pls)
    (hhead : pls.head? = some v0) :
    (check_and_update m env).2
      = [RemoteCall.fetchIp, RemoteCall.getEntries, RemoteCall.describePrefixLists,
          RemoteCall.modifyPrefixList (v0.getD 0) (ownedCidrs entries m.description)
            [(format_cidr (strTrim raw) m.cidr_suffix, m.description)]]
    ∧ ∀ r ∈ ownedCidrs entries m.description,
        r ≠ format_cidr (strTrim raw) m.cidr_suffix := by
  have habsent' : format_cidr (strTrim raw) m.cidr_suffix ∉
      ownedCidrs entries m.description := by simpa using habsent
  constructor
  · rw [check_and_update_mutate_path m env raw entries pls v0 hfetch hvalid hchanged
      hentries habsent hdesc hhead]
  · intro r hr h
    exact habsent' (h ▸ hr)

theorem C1_conditional_mutate_witness :
    (check_and_update ⟨"pl-0123", "Auto-updated host IP", none, 32⟩
        ⟨.ok "9.9.9.9", .ok [some 1], .ok [], fun _ _ _ => .ok ()⟩).2
      = [RemoteCall.fetchIp, RemoteCall.getEntries, RemoteCall.describePrefixLists,
          RemoteCall.modifyPrefixList 1 [] [("9.9.9.9/32", "Auto-updated host IP")]]
    ∧ ∀ r ∈ ownedCidrs [] "Auto-updated host IP", r ≠ "9.9.9.9/32" :=
  C1_conditional_mutate ⟨"pl-0123", "Auto-updated host IP", none, 32⟩
    ⟨.ok "9.9.9.9", .ok [some 1], .ok [], fun _ _ _ => .ok ()⟩ "9.9.9.9" [] [some 1]
    (some 1) rfl (by decide) (by decide) rfl (by decide) rfl rfl

/-- C6: the IPv4 validation accepts `"192.168.1.1"` and rejects
`"invalid"`, `"256.1.1.1"` and the empty string; and whenever the IP
fetch fails or its trimmed text is not a well-formed dotted-quad, the
cycle fails with the fetch error (resp. the invalid-address error),
issues no allowlist call (the trace holds only the IP fetch), and
leaves the monitor state unchanged. -/
theorem C6_invalid_ip_no_calls :
    (is_valid_ipv4 "192.168.1.1" = true ∧ is_valid_ipv4 "invalid" = false
      ∧ is_valid_ipv4 "256.1.1.1" = false ∧ is_valid_ipv4 "" = false)
    ∧ (∀ (m : Monitor) (env : Env) (e : String), env.fetchResponse = .error e →
        check_and_update m env = ((Except.error e, m), [RemoteCall.fetchIp]))
    ∧ (∀ (m : Monitor) (env : Env) (raw : String), env.fetchResponse = .ok raw →
        is_valid_ipv4 (strTrim raw) = false →
        check_and_update m env
          = ((Except.error "Invalid IP address format", m), [RemoteCall.fetchIp])) := by
  refine ⟨⟨by decide, by decide, by decide, by decide⟩, ?_, ?_⟩
  · intro m env e hf
    simp [check_and_update, get_external_ip, hf]
  · intro m env raw hf hv
    simp [check_and_update, get_external_ip, hf, hv]

/-- C10: given a describe response, reading the prefix-list version
fails exactly when the response holds no prefix list; a prefix list
whose version field is absent yields version 0, and that 0 then guards
the mutate request that `update_prefix_list` submits. -/
theorem C10_version_read_defaults (env : Env) (pls : List (Option Int))
    (hdesc : env.describeResponse = .ok pls) :
    ((∃ e, (get_prefix_list_version env).1 = .error e) ↔ pls = [])
    ∧ (∀ rest, pls = none :: rest → (get_prefix_list_version env).1 = .ok 0)
    ∧ (∀ (m : Monitor) (new_cidr : String) (old_cidrs : List String)
        (rest : List (Option Int)), pls = none :: rest →
        (update_prefix_list m env new_cidr old_cidrs).2
          = [RemoteCall.describePrefixLists,
              RemoteCall.modifyPrefixList 0 old_cidrs [(new_cidr, m.description)]]) := by
  refine ⟨?_, ?_, ?_⟩
  · cases pls with
    | nil => simp [get_prefix_list_version, hdesc]
    | cons a as => simp [get_prefix_list_version, hdesc]
  · rintro rest rfl
    simp [get_prefix_list_version, hdesc]
  · rintro m new_cidr old_cidrs rest rfl
    simp [update_prefix_list, get_prefix_list_version, hdesc]

theorem C10_version_read_defaults_witness :
    (get_prefix_list_version ⟨.ok "9.9.9.9", .ok [none], .ok [], fun _ _ _ => .ok ()⟩).1
      = .ok 0
    ∧ (update_prefix_list ⟨"pl-0123", "Auto-updated host IP", none, 32⟩
        ⟨.ok "9.9.9.9", .ok [none], .ok [], fun _ _ _ => .ok ()⟩ "9.9.9.9/32" []).2
      = [RemoteCall.describePrefixLists,
          RemoteCall.modifyPrefixList 0 [] [("9.9.9.9/32", "Auto-updated host IP")]] :=
  ⟨(C10_version_read_defaults _ [none] rfl).2.1 [] rfl,
    (C10_version_read_defaults _ [none] rfl).2.2
      ⟨"pl-0123", "Auto-updated host IP", none, 32⟩ "9.9.9.9/32" [] [] rfl⟩

/-- C4: a cycle that fails — entry listing, version read, or the
guarded mutate being rejected — yields an error outcome and leaves the
in-memory state exactly as it was: (a) any error outcome leaves the
monitor unchanged, (b) an entry-listing failure fails the cycle,
(c) a rejected mutate (version conflict or any other rejection) fails
the cycle with that error and the monitor unchanged, (d) a failing
describe call fails the cycle with that error before any mutate is
submitted, and (e) a describe response holding no prefix list
(not-found) fails the cycle with "Prefix list not found", again with
no mutate submitted and the monitor unchanged. -/
theorem C4_failure_leaves_state (m : Monitor) (env : Env) :
    (∀ e, (check_and_update m env).1.1 = Except.error e →
        (check_and_update m env).1.2 = m)
    ∧ (∀ raw e, env.fetchResponse = .ok raw → is_valid_ipv4 (strTrim raw) = true →
        m.current_ip ≠ some (strTrim raw) → env.entriesResponse = .error e →
        check_and_update m env
          = ((Except.error e, m), [RemoteCall.fetchIp, RemoteCall.getEntries]))
    ∧ (∀ raw entries pls v0 e, env.fetchResponse = .ok raw →
        is_valid_ipv4 (strTrim raw) = true → m.current_ip ≠ some (strTrim raw) →
        env.entriesResponse = .ok entries →
        (ownedCidrs entries m.description).contains
          (format_cidr (strTrim raw) m.cidr_suffix) = false →
        env.describeResponse = .ok pls → pls.head? = some v0 →
        env.modifyResponse (v0.getD 0) (ownedCidrs entries m.description)
            [(format_cidr (strTrim raw) m.cidr_suffix, m.description)]
          = .error e →
        (check_and_update m env).1 = (Except.error e, m))
    ∧ (∀ raw entries e, env.fetchResponse = .ok raw →
        is_valid_ipv4 (strTrim raw) = true → m.current_ip ≠ some (strTrim raw) →
        env.entriesResponse = .ok entries →
        (ownedCidrs entries m.description).contains
          (format_cidr (strTrim raw) m.cidr_suffix) = false →
        env.describeResponse = .error e →
        check_and_update m env
          = ((Except.error e, m),
              [RemoteCall.fetchIp, RemoteCall.getEntries,
                RemoteCall.describePrefixLists]))
    ∧ (∀ raw entries, env.fetchResponse = .ok raw →
        is_valid_ipv4 (strTrim raw) = true → m.current_ip ≠ some (strTrim raw) →
        env.entriesResponse = .ok entries →
        (ownedCidrs entries m.description).contains
          (format_cidr (strTrim raw) m.cidr_suffix) = false →
        env.describeResponse = .ok [] →
        check_and_update m env
          = ((Except.error "Prefix list not found", m),
              [RemoteCall.fetchIp, RemoteCall.getEntries,
                RemoteCall.describePrefixLists])) := by
  refine ⟨?_, ?_, ?_, ?_, ?_⟩
  · intro e h
    rcases hf : env.fetchResponse with ef | raw
    · simp [check_and_update, get_external_ip, hf]
    · by_cases hv : is_valid_ipv4 (strTrim raw) = true
      · by_cases hc : m.current_ip = some (strTrim raw)
        · simp [check_and_update, get_external_ip, hf, hv, hc] at h
        · rcases he : env.entriesResponse with ee | entries
          · simp [check_and_update, get_external_ip, get_current_entries,
              hf, hv, hc, he]
          · by_cases hp : format_cidr (strTrim raw) m.cidr_suffix ∈
                ownedCidrs entries m.description
            · simp [check_and_update, get_external_ip, get_current_entries,
                hf, hv, hc, he, hp] at h
            · rcases hd : env.describeResponse with ed | pls
              · simp [check_and_update, get_external_ip, get_current_entries,
                  update_prefix_list, get_prefix_list_version, hf, hv, hc, he,
                  hp, hd]
              · rcases hhd : pls.head? with _ | v0
                · simp [check_and_update, get_external_ip, get_current_entries,
                    update_prefix_list, get_prefix_list_version, hf, hv, hc, he,
                    hp, hd, hhd]
                · rcases hm : env.modifyResponse (v0.getD 0)
                      (ownedCidrs entries m.description)
                      [(format_cidr (strTrim raw) m.cidr_suffix, m.description)]
                      with em | u
                  · simp [check_and_update, get_external_ip, get_current_entries,
                      update_prefix_list, get_prefix_list_version, hf, hv, hc, he,
                      hp, hd, hhd, hm]
                  · simp [check_and_update, get_external_ip, get_current_entries,
                      update_prefix_list, get_prefix_list_version, hf, hv, hc, he,
                      hp, hd, hhd, hm] at h
      · simp [check_and_update, get_external_ip, hf, hv]
  · intro raw e hfetch hvalid hchanged hentries
    simp [check_and_update, get_external_ip, get_current_entries, hfetch, hvalid,
      hchanged, hentries]
  · intro raw entries pls v0 e hfetch hvalid hchanged hentries habsent hdesc hhead hmod
    rw [check_and_update_mutate_path m env raw entries pls v0 hfetch hvalid hchanged
      hentries habsent hdesc hhead]
    simp [hmod]
  · intro raw entries e hfetch hvalid hchanged hentries habsent hdesc
    have habsent' : format_cidr (strTrim raw) m.cidr_suffix ∉
        ownedCidrs entries m.description := by simpa using habsent
    simp [check_and_update, get_external_ip, get_current_entries, update_prefix_list,
      get_prefix_list_version, hfetch, hvalid, hchanged, hentries, habsent', hdesc]
  · intro raw entries hfetch hvalid hchanged hentries habsent hdesc
    have habsent' : format_cidr (strTrim raw) m.cidr_suffix ∉
        ownedCidrs entries m.description := by simpa using habsent
    simp [check_and_update, get_external_ip, get_current_entries, update_prefix_list,
      get_prefix_list_version, hfetch, hvalid, hchanged, hentries, habsent', hdesc]

theorem C4_failure_leaves_state_witness :
    (check_and_update ⟨"pl-0123", "Auto-updated host IP", some "1.2.3.4", 32⟩
        ⟨.ok "5.6.7.8", .ok [some 7],
          .ok [⟨some "1.2.3.4/32", some "Auto-updated host IP"⟩],
          fun _ _ _ => .error "IncorrectState: incorrect version"⟩).1
      = (Except.error "IncorrectState: incorrect version",
          ⟨"pl-0123", "Auto-updated host IP", some "1.2.3.4", 32⟩) :=
  (C4_failure_leaves_state ⟨"pl-0123", "Auto-updated host IP", some "1.2.3.4", 32⟩
      ⟨.ok "5.6.7.8", .ok [some 7],
        .ok [⟨some "1.2.3.4/32", some "Auto-updated host IP"⟩],
        fun _ _ _ => .error "IncorrectState: incorrect version"⟩).2.2.1
    "5.6.7.8" [⟨some "1.2.3.4/32", some "Auto-updated host IP"⟩] [some 7] (some 7)
    "IncorrectState: incorrect version" rfl (by decide) (by decide) rfl (by decide)
    rfl rfl rfl

/-- After a mutate that removes every owned CIDR and adds the candidate
tagged with the configured description, the tagged entries of the
resulting remote list are exactly the single candidate entry (every
remote entry is assumed to carry a CIDR, as AWS guarantees). -/
theorem applyModify_owned_filter (entries : List RemoteEntry) (tag cand : String)
    (hcidr : ∀ e ∈ entries, e.cidr.isSome = true) :
    (applyModify entries (ownedCidrs entries tag) [(cand, tag)]).filter
        (fun e => decide (e.description = some tag))
      = [⟨some cand, some tag⟩] := by
  unfold applyModify
  rw [List.filter_append]
  have h1 : (entries.filter fun e =>
      match e.cidr with
      | some c => !((ownedCidrs entries tag).contains c)
      | none => true).filter (fun e => decide (e.description = some tag)) = [] := by
    rw [List.filter_eq_nil_iff]
    intro e he htag
    rw [List.mem_filter] at he
    obtain ⟨hmem, hkeep⟩ := he
    have htag' : e.description = some tag := of_decide_eq_true htag
    obtain ⟨c, hc⟩ := Option.isSome_iff_exists.mp (hcidr e hmem)
    rw [hc] at hkeep
    simp at hkeep
    exact hkeep (List.mem_filterMap.mpr ⟨e, hmem, by rw [if_pos htag', hc]⟩)
  rw [h1]
  simp

/-- C5: a successful cycle that detected a change and performed the
mutate returns `Ok(true)`, and applying the submitted mutation to the
remote entries leaves exactly one entry whose description equals the
configured tag — the candidate CIDR; every stale tagged entry is
removed by the same request. -/
theorem C5_exactly_one_tagged_entry (m : Monitor) (env : Env) (raw : String)
    (entries : List RemoteEntry) (pls : List (Option Int)) (v0 : Option Int)
    (hfetch : env.fetchResponse = .ok raw)
    (hvalid : is_valid_ipv4 (strTrim raw) = true)
    (hchanged : m.current_ip ≠ some (strTrim raw))
    (hentries : env.entriesResponse = .ok entries)
    (habsent : (ownedCidrs entries m.description).contains
        (format_cidr (strTrim raw) m.cidr_suffix) = false)
    (hdesc : env.describeResponse = .ok pls)
    (hhead : pls.head? = some v0)
    (hmod : env.modifyResponse (v0.getD 0) (ownedCidrs entries m.description)
        [(format_cidr (strTrim raw) m.cidr_suffix, m.description)] = .ok ())
    (hcidr : ∀ e ∈ entries, e.cidr.isSome = true) :
    check_and_update m env
      = ((Except.ok true, { m with current_ip := some (strTrim raw) }),
          [RemoteCall.fetchIp, RemoteCall.getEntries, RemoteCall.describePrefixLists,
            RemoteCall.modifyPrefixList (v0.getD 0) (ownedCidrs entries m.description)
              [(format_cidr (strTrim raw) m.cidr_suffix, m.description)]])
    ∧ (applyModify entries (ownedCidrs entries m.description)
          [(format_cidr (strTrim raw) m.cidr_suffix, m.description)]).filter
        (fun e => decide (e.description = some m.description))
      = [⟨some (format_cidr (strTrim raw) m.cidr_suffix), some m.description⟩] := by
  constructor
  · rw [check_and_update_mutate_path m env raw entries pls v0 hfetch hvalid hchanged
      hentries habsent hdesc hhead]
    rw [hmod]
  · exact applyModify_owned_filter entries m.description
      (format_cidr (strTrim raw) m.cidr_suffix) hcidr

theorem C5_exactly_one_tagged_entry_witness :
    check_and_update ⟨"pl-0123", "Auto-updated host IP", some "1.2.3.4", 32⟩
        ⟨.ok "5.6.7.8", .ok [some 7],
          .ok [⟨some "1.2.3.4/32", some "Auto-updated host IP"⟩,
                ⟨some "10.0.0.0/8", some "operator rule"⟩],
          fun _ _ _ => .ok ()⟩
      = ((Except.ok true, ⟨"pl-0123", "Auto-updated host IP", some "5.6.7.8", 32⟩),
          [RemoteCall.fetchIp, RemoteCall.getEntries, RemoteCall.describePrefixLists,
            RemoteCall.modifyPrefixList 7 ["1.2.3.4/32"]
              [("5.6.7.8/32", "Auto-updated host IP")]])
    ∧ (applyModify [⟨some "1.2.3.4/32", some "Auto-updated host IP"⟩,
          ⟨some "10.0.0.0/8", some "operator rule"⟩] ["1.2.3.4/32"]
          [("5.6.7.8/32", "Auto-updated host IP")]).filter
        (fun e => decide (e.description = some "Auto-updated host IP"))
      = [⟨some "5.6.7.8/32", some "Auto-updated host IP"⟩] :=
  C5_exactly_one_tagged_entry ⟨"pl-0123", "Auto-updated host IP", some "1.2.3.4", 32⟩
    ⟨.ok "5.6.7.8", .ok [some 7],
      .ok [⟨some "1.2.3.4/32", some "Auto-updated host IP"⟩,
            ⟨some "10.0.0.0/8", some "operator rule"⟩],
      fun _ _ _ => .ok ()⟩
    "5.6.7.8"
    [⟨some "1.2.3.4/32", some "Auto-updated host IP"⟩,
      ⟨some "10.0.0.0/8", some "operator rule"⟩]
    [some 7] (some 7) rfl (by decide) (by decide) rfl (by decide) rfl rfl rfl
    (by decide)

/-- In continuous mode the scheduler loop never returns, whatever fuel
it is run with. -/
theorem run_continuous_never_returns (fuel : Nat) :
    ∀ (m : Monitor) (envs : Nat → Env), (run m envs false fuel).1 = none := by
  induction fuel with
  | zero => intro m envs; rfl
  | succ n ih =>
      intro m envs
      simp only [run, Bool.false_eq_true, if_false]
      exact ih _ _

/-- In continuous mode every completed cycle is followed by exactly one
interval sleep: the trace holds as many sleeps as cycles. -/
theorem run_continuous_sleep_counts (fuel : Nat) :
    ∀ (m : Monitor) (envs : Nat → Env),
      countSleeps (run m envs false fuel).2 = countCycles (run m envs false fuel).2 := by
  induction fuel with
  | zero => intro m envs; rfl
  | succ n ih =>
      intro m envs
      rcases hr : (check_and_update m (envs 0)).1.1 with e | b
      all_goals
        simp [run, countSleeps, countCycles, hr, List.countP_cons, List.countP_append]
      all_goals
        have := ih (check_and_update m (envs 0)).1.2 (fun i => envs (i + 1))
        simp [countSleeps, countCycles] at this
        omega

/-- C7: the scheduler invokes the first cycle immediately; with
`once = true` it returns success right after exactly one cycle,
whatever that cycle's outcome, with any per-cycle error logged (at
error severity) and swallowed; with `once = false` it never returns,
and it sleeps for the interval exactly once after every cycle,
successful or failed. -/
theorem C7_scheduler_loop (m : Monitor) (envs : Nat → Env) :
    (∀ fuel, run m envs true (fuel + 1)
        = (some (check_and_update m (envs 0)).1.2,
            SchedEvent.cycleDone (check_and_update m (envs 0)).1.1 ::
              (match (check_and_update m (envs 0)).1.1 with
                | .error e => [SchedEvent.logged Severity.errorS e]
                | .ok _ => ([] : List SchedEvent))))
    ∧ (∀ fuel, (run m envs false fuel).1 = none)
    ∧ (∀ fuel, countSleeps (run m envs false fuel).2
        = countCycles (run m envs false fuel).2) := by
  refine ⟨?_, fun fuel => run_continuous_never_returns fuel m envs,
    fun fuel => run_continuous_sleep_counts fuel m envs⟩
  intro fuel
  simp [run]

/-- The spec's change-scenario monitor: last known address `"1.2.3.4"`,
tag "Auto-updated host IP", /32 suffix. -/
def monitor0 : Monitor := ⟨"pl-0123", "Auto-updated host IP", some "1.2.3.4", 32⟩

/-- A cold-start monitor: no last known address. -/
def coldMonitor : Monitor := ⟨"pl-0123", "Auto-updated host IP", none, 32⟩

/-- A cycle in which the fetched address equals the last known one. -/
def unchangedEnv : Env := ⟨.ok "1.2.3.4", .ok [some 7], .ok [], fun _ _ _ => .ok ()⟩

/-- A cycle in which the candidate CIDR is already among the owned
entries. -/
def alreadyPresentEnv : Env :=
  ⟨.ok "1.2.3.4", .ok [some 7],
    .ok [⟨some "1.2.3.4/32", some "Auto-updated host IP"⟩], fun _ _ _ => .ok ()⟩

/-- The spec's change scenario: address moves from 1.2.3.4 to 5.6.7.8,
one stale owned entry, the mutate succeeds. -/
def changeEnv : Env :=
  ⟨.ok "5.6.7.8", .ok [some 7],
    .ok [⟨some "1.2.3.4/32", some "Auto-updated host IP"⟩], fun _ _ _ => .ok ()⟩

/-- Same change scenario, but the guarded mutate is rejected with the
stale-version error the EC2 API returns. -/
def conflictEnv : Env :=
  ⟨.ok "5.6.7.8", .ok [some 7],
    .ok [⟨some "1.2.3.4/32", some "Auto-updated host IP"⟩],
    fun _ _ _ => .error "IncorrectState: prefix list has the incorrect version"⟩

/-- Same change scenario, but the mutate fails with a generic
authorization error. -/
def authErrorEnv : Env :=
  ⟨.ok "5.6.7.8", .ok [some 7],
    .ok [⟨some "1.2.3.4/32", some "Auto-updated host IP"⟩],
    fun _ _ _ => .error "UnauthorizedOperation: not authorized"⟩

/-- C8 counterexample: an unchanged-address cycle and an
already-present cycle both return exactly `Ok(false)` — the outcome is
a plain `Result<bool>`, so the caller cannot tell `AlreadyPresent`
apart from `Unchanged`, and no removed-count/new-CIDR payload is
returned. -/
theorem C8_counterexample :
    (check_and_update monitor0 unchangedEnv).1.1 = Except.ok false
    ∧ (check_and_update coldMonitor alreadyPresentEnv).1.1 = Except.ok false
    ∧ (check_and_update monitor0 unchangedEnv).1.1
        = (check_and_update coldMonitor alreadyPresentEnv).1.1 := by
  decide

/-- C8 amended: each cycle returns `Result<bool>` with three
distinguishable cases — `Ok(true)` exactly for a successful mutation
(the spec's change scenario, whose removed entries and new CIDR appear
in the submitted request but not in the return value), `Ok(false)` for
both an unchanged address and an already-present candidate, and an
error for a failed cycle. -/
theorem C8_amended_outcomes :
    check_and_update monitor0 changeEnv
      = ((Except.ok true, ⟨"pl-0123", "Auto-updated host IP", some "5.6.7.8", 32⟩),
          [RemoteCall.fetchIp, RemoteCall.getEntries, RemoteCall.describePrefixLists,
            RemoteCall.modifyPrefixList 7 ["1.2.3.4/32"]
              [("5.6.7.8/32", "Auto-updated host IP")]])
    ∧ (check_and_update monitor0 unchangedEnv).1.1 = Except.ok false
    ∧ (check_and_update coldMonitor alreadyPresentEnv).1.1 = Except.ok false
    ∧ (check_and_update monitor0 conflictEnv).1.1
        = Except.error "IncorrectState: prefix list has the incorrect version" := by
  decide

/-- C9 counterexample: a stale-version rejection of the mutate and a
generic authorization failure are both logged by the scheduler at the
same `error!` severity — the conflict is not logged at lower severity,
and both surface as the same kind of plain string error. -/
theorem C9_counterexample :
    (run monitor0 (fun _ => conflictEnv) true 1).2
      = [SchedEvent.cycleDone
            (.error "IncorrectState: prefix list has the incorrect version"),
          SchedEvent.logged Severity.errorS
            "IncorrectState: prefix list has the incorrect version"]
    ∧ (run monitor0 (fun _ => authErrorEnv) true 1).2
      = [SchedEvent.cycleDone (.error "UnauthorizedOperation: not authorized"),
          SchedEvent.logged Severity.errorS "UnauthorizedOperation: not authorized"] := by
  decide

/-- C9 amended: every per-cycle error — a stale-version rejection of
the conditional mutate included — propagates as a plain string with no
distinguished kind and is logged by the scheduler at the single
`error!` severity used for all remote errors. -/
theorem C9_amended_uniform_error_handling (m : Monitor) (envs : Nat → Env)
    (e : String) (h : (check_and_update m (envs 0)).1.1 = Except.error e) :
    run m envs true 1
      = (some (check_and_update m (envs 0)).1.2,
          [SchedEvent.cycleDone (Except.error e),
            SchedEvent.logged Severity.errorS e]) := by
  simp [run, h]

theorem C9_amended_uniform_error_handling_witness :
    run monitor0 (fun _ => conflictEnv) true 1
      = (some monitor0,
          [SchedEvent.cycleDone
              (Except.error "IncorrectState: prefix list has the incorrect version"),
            SchedEvent.logged Severity.errorS
              "IncorrectState: prefix list has the incorrect version"]) :=
  C9_amended_uniform_error_handling monitor0 (fun _ => conflictEnv)
    "IncorrectState: prefix list has the incorrect version" (by decide)

end VpcPlu
